import Mathlib

set_option maxRecDepth 8192
set_option linter.unnecessarySeqFocus false

/-!
Shallow embedding of the nacos-cli client protocol adapter
(`internal/client/nacos_client.go`): the SPAS signer (HMAC-SHA1 +
base64), the credential manager (login / token refresh), the version
negotiator (sticky `authLoginVersion`) and the transport adapter
(List/Get/Publish). Machine integers are modelled as `Nat` with explicit
`% 2^32` where 32-bit overflow matters; HTTP and JSON decoding results
are supplied by an explicit environment.
-/

namespace NacosCli

/-- 2^32, the modulus for 32-bit words in SHA-1. -/
def pow32 : Nat := 4294967296

/-- Rotate a 32-bit word left by `n` bits. -/
def rotl32 (n x : Nat) : Nat := ((x <<< n) ||| (x >>> (32 - n))) % pow32

/-- `n`-byte big-endian encoding of `v`. -/
def beBytes (n v : Nat) : List Nat :=
  (List.range n).map (fun i => v / 2 ^ (8 * (n - 1 - i)) % 256)

/-- Big-endian 32-bit word from four bytes. -/
def beWord (b0 b1 b2 b3 : Nat) : Nat := ((b0 * 256 + b1) * 256 + b2) * 256 + b3

/-- SHA-1 padding: append 0x80, zero bytes to 56 mod 64, then the 64-bit
big-endian bit length. -/
def sha1Pad (msg : List Nat) : List Nat :=
  msg ++ [128] ++ List.replicate ((119 - msg.length % 64) % 64) 0
      ++ beBytes 8 (msg.length * 8)

/-- Split a byte list into 64-byte chunks (structural recursion on a fuel
bound, so that the kernel can evaluate it). -/
def chunks64Aux : Nat → List Nat → List (List Nat)
  | 0, _ => []
  | _, [] => []
  | n + 1, l => l.take 64 :: chunks64Aux n (l.drop 64)

/-- Split a byte list into 64-byte chunks. -/
def chunks64 (l : List Nat) : List (List Nat) := chunks64Aux l.length l

/-- The sixteen 32-bit big-endian words of one 64-byte chunk. -/
def chunkWords (chunk : List Nat) : List Nat :=
  (List.range 16).map (fun i =>
    beWord (chunk.getD (4 * i) 0) (chunk.getD (4 * i + 1) 0)
      (chunk.getD (4 * i + 2) 0) (chunk.getD (4 * i + 3) 0))

/-- Extend the 16 message words of a chunk to the 80-word SHA-1 schedule. -/
def sha1Extend (ws : Array Nat) : Array Nat :=
  (List.range 64).foldl
    (fun a i =>
      a.push (rotl32 1 ((((a.getD (i + 13) 0) ^^^ (a.getD (i + 8) 0))
        ^^^ (a.getD (i + 2) 0)) ^^^ (a.getD i 0))))
    ws

/-- The five-word SHA-1 working state. -/
structure Sha1State where
  a : Nat
  b : Nat
  c : Nat
  d : Nat
  e : Nat
deriving Repr, DecidableEq

/-- The round-dependent boolean function of SHA-1. -/
def sha1F (t b c d : Nat) : Nat :=
  if t < 20 then (b &&& c) ||| ((b ^^^ 4294967295) &&& d)
  else if t < 40 then (b ^^^ c) ^^^ d
  else if t < 60 then ((b &&& c) ||| (b &&& d)) ||| (c &&& d)
  else (b ^^^ c) ^^^ d

/-- The round-dependent SHA-1 constant. -/
def sha1K (t : Nat) : Nat :=
  if t < 20 then 0x5A827999
  else if t < 40 then 0x6ED9EBA1
  else if t < 60 then 0x8F1BBCDC
  else 0xCA62C1D6

/-- One SHA-1 compression round; `tw` is the round index and schedule word. -/
def sha1Round (st : Sha1State) (tw : Nat × Nat) : Sha1State :=
  let temp := (rotl32 5 st.a + sha1F tw.1 st.b st.c st.d + st.e + sha1K tw.1 + tw.2) % pow32
  ⟨temp, st.a, rotl32 30 st.b, st.c, st.d⟩

/-- Process one 64-byte chunk. -/
def sha1Chunk (h : Sha1State) (chunk : List Nat) : Sha1State :=
  let ws := sha1Extend (Array.mk (chunkWords chunk))
  let st := ((List.range 80).zip ws.toList).foldl sha1Round h
  ⟨(h.a + st.a) % pow32, (h.b + st.b) % pow32, (h.c + st.c) % pow32,
   (h.d + st.d) % pow32, (h.e + st.e) % pow32⟩

/-- The SHA-1 initialization vector. -/
def sha1Init : Sha1State := ⟨0x67452301, 0xEFCDAB89, 0x98BADCFE, 0x10325476, 0xC3D2E1F0⟩

/-- SHA-1 of a byte list (mirrors Go `crypto/sha1`). -/
def sha1 (msg : List Nat) : List Nat :=
  let fin := (chunks64 (sha1Pad msg)).foldl sha1Chunk sha1Init
  beBytes 4 fin.a ++ beBytes 4 fin.b ++ beBytes 4 fin.c ++ beBytes 4 fin.d ++ beBytes 4 fin.e

/-- HMAC-SHA1 with block size 64 (mirrors Go `crypto/hmac` with `sha1.New`). -/
def hmacSha1 (key msg : List Nat) : List Nat :=
  let k0 := if key.length > 64 then sha1 key else key
  let k1 := k0 ++ List.replicate (64 - k0.length) 0
  let ipad := k1.map (fun b => b ^^^ 0x36)
  let opad := k1.map (fun b => b ^^^ 0x5C)
  sha1 (opad ++ sha1 (ipad ++ msg))

/-- The standard base64 alphabet. -/
def base64Alphabet : List Char :=
  "ABCDEFGHIJKLMNOPQRSTUVWXYZabcdefghijklmnopqrstuvwxyz0123456789+/".toList

/-- The base64 digit for a 6-bit value. -/
def b64Char (n : Nat) : Char := base64Alphabet.getD n 'A'

/-- Standard base64 encoding with `=` padding (mirrors Go
`base64.StdEncoding.EncodeToString`). -/
def base64Encode : List Nat → String
  | [] => ""
  | [b0] => String.mk [b64Char (b0 / 4), b64Char (b0 % 4 * 16), '=', '=']
  | [b0, b1] =>
    String.mk [b64Char (b0 / 4), b64Char (b0 % 4 * 16 + b1 / 16), b64Char (b1 % 16 * 4), '=']
  | b0 :: b1 :: b2 :: rest =>
    String.mk [b64Char (b0 / 4), b64Char (b0 % 4 * 16 + b1 / 16),
      b64Char (b1 % 16 * 4 + b2 / 64), b64Char (b2 % 64)] ++ base64Encode rest

/-- UTF-8 encoding of a Unicode codepoint. -/
def utf8EncodeCodepoint (n : Nat) : List Nat :=
  if n < 128 then [n]
  else if n < 2048 then [192 + n / 64, 128 + n % 64]
  else if n < 65536 then [224 + n / 4096, 128 + n / 64 % 64, 128 + n % 64]
  else [240 + n / 262144, 128 + n / 4096 % 64, 128 + n / 64 % 64, 128 + n % 64]

/-- UTF-8 bytes of a string, as `Nat`s. -/
def strBytes (s : String) : List Nat :=
  s.toList.flatMap (fun c => utf8EncodeCodepoint c.toNat)

/-- `getSignData` from `nacos_client.go`: builds the SPAS sign payload from
tenant, group and timestamp. -/
def getSignData (tenant group timeStamp : String) : String :=
  if tenant = "" then
    if group = "" then timeStamp
    else group ++ "+" ++ timeStamp
  else if group ≠ "" then tenant ++ "+" ++ group ++ "+" ++ timeStamp
  else tenant ++ "+" ++ timeStamp

/-- `spasSign` from `nacos_client.go`: HMAC-SHA1 of the payload keyed by the
secret key, base64-encoded. -/
def spasSign (signData secretKey : String) : String :=
  base64Encode (hmacSha1 (strBytes secretKey) (strBytes signData))

/-! ## Client state model -/

/-- `AuthTypeNacos`: username/password with token refresh. -/
def AuthTypeNacos : String := "nacos"

/-- `AuthTypeAliyun`: AK/SK, long-lived, per-request signing. -/
def AuthTypeAliyun : String := "aliyun"

/-- The mutable fields of `NacosClient`. `TokenExpireAt` is an `Option`al
instant in seconds (`none` models Go's zero `time.Time`); `authLoginVersion`
is `""`, `"v3"` or `"v1"`. -/
structure NacosClient where
  ServerAddr : String
  Namespace : String
  AuthType : String
  Username : String
  Password : String
  AccessKey : String
  SecretKey : String
  AccessToken : String
  TokenExpireAt : Option Nat
  authLoginVersion : String
deriving Repr, DecidableEq

/-- One `fmt.Errorf` site of `nacos_client.go`, as a distinct inspectable
error value. The arguments are the values interpolated into the Go error
string at that site. -/
inductive GoError where
  | loginNetErr
  | loginBadStatus (status : Nat) (body : String)
  | loginNoToken
  | reqNetErr (op : String)
  | badStatus (op : String) (status : Nat) (body : String)
  | v1ListBadStatus (status : Nat)
  | getBadStatus (status : Nat)
  | jsonUnmarshalErr (op : String)
  | v3AppError (code : Int) (message : String)
  | publishFailed (status : Nat) (body : String)
deriving Repr, DecidableEq

/-- The decoded view of a login response body as a JSON object:
`accessToken` if present as a string, `tokenTtl` if present as a number. -/
structure LoginBodyJson where
  accessToken : Option String
  tokenTtl : Option Int
deriving Repr, DecidableEq

/-- A login endpoint HTTP response: status, raw body, and the result of
`json.Unmarshal` into a map (`none` = unmarshal error). -/
structure LoginHttpResp where
  status : Nat
  body : String
  json : Option LoginBodyJson
deriving Repr, DecidableEq

/-- Outcome of POSTing to a login endpoint. -/
inductive LoginOutcome where
  | netErr
  | resp (r : LoginHttpResp)
deriving Repr, DecidableEq

/-- The environment of one `login` call: outcome of the v3 attempt (if
issued), outcome of the v1 attempt (if issued), and the current time in
seconds. -/
structure LoginEnv where
  v3 : LoginOutcome
  v1 : LoginOutcome
  now : Nat
deriving Repr, DecidableEq

/-- `applyLoginResponse`: parses the login JSON and sets `AccessToken` and
`TokenExpireAt`; returns `true` iff a non-empty `accessToken` was present.
The state is unchanged when the result is `false`. -/
def applyLoginResponse (c : NacosClient) (now : Nat) (json : Option LoginBodyJson) :
    NacosClient × Bool :=
  match json with
  | none => (c, false)
  | some j =>
    match j.accessToken with
    | none => (c, false)
    | some token =>
      if token = "" then (c, false)
      else
        let ttlSec : Int := j.tokenTtl.getD 0
        let c1 := { c with AccessToken := token }
        if ttlSec > 0 then ({ c1 with TokenExpireAt := some (now + ttlSec.toNat) }, true)
        else ({ c1 with TokenExpireAt := none }, true)

/-- Result of `login` / `ensureTokenValid`: the updated client, the returned
error (if any), and which login endpoints were attempted, in order. -/
structure LoginResult where
  client : NacosClient
  error : Option GoError
  attempts : List String
deriving Repr, DecidableEq

/-- The v1 half of `login`: POST to the legacy endpoint and accept only an
HTTP 200 response carrying a non-empty `accessToken`. -/
def loginV1 (c : NacosClient) (env : LoginEnv) : LoginResult :=
  match env.v1 with
  | .netErr => ⟨c, some .loginNetErr, ["v1"]⟩
  | .resp r =>
    if r.status ≠ 200 then ⟨c, some (.loginBadStatus r.status r.body), ["v1"]⟩
    else
      let (c1, ok) := applyLoginResponse c env.now r.json
      if ok then ⟨{ c1 with authLoginVersion := "v1" }, none, ["v1"]⟩
      else ⟨c1, some .loginNoToken, ["v1"]⟩

/-- `login` from `nacos_client.go`: tries v3 first (unless the version is
fixed to v1), falls back to v1 when the version is not yet fixed, and fixes
`authLoginVersion` to whichever endpoint succeeds. -/
def login (c : NacosClient) (env : LoginEnv) : LoginResult :=
  if c.authLoginVersion = "" ∨ c.authLoginVersion = "v3" then
    match env.v3 with
    | .netErr =>
      if c.authLoginVersion = "v3" then ⟨c, some .loginNetErr, ["v3"]⟩
      else
        let r := loginV1 c env
        { r with attempts := "v3" :: r.attempts }
    | .resp r =>
      if r.status = 200 then
        let (c1, ok) := applyLoginResponse c env.now r.json
        if ok then ⟨{ c1 with authLoginVersion := "v3" }, none, ["v3"]⟩
        else if c.authLoginVersion = "v3" then
          ⟨c1, some (.loginBadStatus r.status r.body), ["v3"]⟩
        else
          let r1 := loginV1 c1 env
          { r1 with attempts := "v3" :: r1.attempts }
      else
        if c.authLoginVersion = "v3" then ⟨c, some (.loginBadStatus r.status r.body), ["v3"]⟩
        else
          let r1 := loginV1 c env
          { r1 with attempts := "v3" :: r1.attempts }
  else loginV1 c env

/-- `ensureTokenValid`: refresh the token when needed (`nacos` auth only).
A login is performed iff no token is held, or an expiry is recorded and
`now + 5s` is strictly after it. -/
def ensureTokenValid (c : NacosClient) (env : LoginEnv) : LoginResult :=
  if c.AuthType ≠ AuthTypeNacos then ⟨c, none, []⟩
  else if c.AccessToken = "" then login c env
  else
    match c.TokenExpireAt with
    | none => ⟨c, none, []⟩
    | some expireAt => if env.now + 5 > expireAt then login c env else ⟨c, none, []⟩

/-- The struct literal built inside `NewNacosClient`: defaults the
namespace to `"public"` and infers the auth type when the argument is
empty. -/
def initClient (serverAddr ns authType username password accessKey secretKey : String) :
    NacosClient :=
  { ServerAddr := serverAddr,
    Namespace := if ns = "" then "public" else ns,
    AuthType :=
      if authType = "" then
        if accessKey ≠ "" ∧ secretKey ≠ "" then AuthTypeAliyun else AuthTypeNacos
      else authType,
    Username := username, Password := password,
    AccessKey := accessKey, SecretKey := secretKey,
    AccessToken := "", TokenExpireAt := none, authLoginVersion := "" }

/-- `NewNacosClient`: builds the client via `initClient`; for `nacos` auth
it attempts a login and, on failure, only prints a warning. The second
component is the list of printed warning lines — the login error is not
returned to the caller. -/
def NewNacosClient (serverAddr ns authType username password accessKey secretKey : String)
    (env : LoginEnv) : NacosClient × List String :=
  let c := initClient serverAddr ns authType username password accessKey secretKey
  if c.AuthType = AuthTypeNacos then
    let r := login c env
    match r.error with
    | some _ => (r.client, ["Warning: Login failed"])
    | none => (r.client, [])
  else (c, [])

/-! ## Requests and transport operations -/

/-- Set a key in an association list, replacing an existing entry (as
`url.Values.Set` / resty `SetHeader` do) or appending. -/
def setKV : List (String × String) → String → String → List (String × String)
  | [], k, v => [(k, v)]
  | (k0, v0) :: rest, k, v =>
    if k0 = k then (k0, v) :: rest else (k0, v0) :: setKV rest k v

/-- Look a key up in an association list. -/
def getKV : List (String × String) → String → Option String
  | [], _ => none
  | (k0, v0) :: rest, k => if k0 = k then some v0 else getKV rest k

/-- An outgoing HTTP request: target path, headers, query parameters and
form fields. -/
structure Request where
  url : String
  headers : List (String × String)
  query : List (String × String)
  form : List (String × String)
deriving Repr, DecidableEq

/-- A request with the given path and nothing set. -/
def Request.empty (url : String) : Request := ⟨url, [], [], []⟩

/-- resty `SetHeader`. -/
def Request.setHeader (r : Request) (k v : String) : Request :=
  { r with headers := setKV r.headers k v }

/-- `url.Values.Set` on the request's query. -/
def Request.setQuery (r : Request) (k v : String) : Request :=
  { r with query := setKV r.query k v }

/-- A form field (from the `SetFormData` map). -/
def Request.setForm (r : Request) (k v : String) : Request :=
  { r with form := setKV r.form k v }

/-- Header lookup. -/
def Request.getHeader (r : Request) (k : String) : Option String := getKV r.headers k

/-- Query parameter lookup. -/
def Request.getQuery (r : Request) (k : String) : Option String := getKV r.query k

/-- `setSpasHeaders`: for `aliyun` auth with non-empty AK and SK, attach
`timeStamp` (ms epoch), `Spas-AccessKey` and `Spas-Signature`; otherwise do
nothing. -/
def setSpasHeaders (c : NacosClient) (req : Request) (tenant group : String)
    (nowMs : Nat) : Request :=
  if c.AuthType ≠ AuthTypeAliyun ∨ c.AccessKey = "" ∨ c.SecretKey = "" then req
  else
    let ts := toString nowMs
    let req1 := req.setHeader "timeStamp" ts
    let req2 := req1.setHeader "Spas-AccessKey" c.AccessKey
    let signData := getSignData tenant group ts
    req2.setHeader "Spas-Signature" (spasSign signData c.SecretKey)

/-- A remote configuration entry (Go `Config`). -/
structure Config where
  dataId : String
  group : String
  groupName : String
  content : String
  type : String
deriving Repr, DecidableEq

/-- A paginated listing result (Go `ConfigListResponse`). -/
structure ConfigListResponse where
  totalCount : Int
  pageNumber : Int
  pagesAvailable : Int
  pageItems : List Config
deriving Repr, DecidableEq

/-- The decoded v3 envelope (Go `V3Response`); `dataJson` is the result of
unmarshalling its `data` field into `ConfigListResponse`. -/
structure V3Response where
  code : Int
  message : String
  dataJson : Option ConfigListResponse
deriving Repr, DecidableEq

/-- A data endpoint HTTP response: status, raw body, and the results of the
two possible `json.Unmarshal` calls on the body (`none` = unmarshal error).
Only the fields the executed path consults are meaningful. -/
structure DataHttpResp where
  status : Nat
  body : String
  v3Json : Option V3Response
  listJson : Option ConfigListResponse
deriving Repr, DecidableEq

/-- Outcome of issuing a data request. -/
inductive DataOutcome where
  | netErr
  | resp (r : DataHttpResp)
deriving Repr, DecidableEq

/-- Environment of a `ListConfigs` call: login environment, millisecond
clock for signing, and the outcome of the v3 / v1 list request if issued. -/
structure ListEnv where
  login : LoginEnv
  nowMs : Nat
  v3 : DataOutcome
  v1 : DataOutcome
deriving Repr, DecidableEq

/-- Environment of a `GetConfig` / `PublishConfig` call. -/
structure SimpleEnv where
  login : LoginEnv
  nowMs : Nat
  http : DataOutcome
deriving Repr, DecidableEq

deriving instance DecidableEq for Except

/-- Result of one transport operation: the client state after the call, the
login endpoints attempted by token refresh, the data request issued (if the
call got that far) and the returned value or error. -/
structure OpResult (α : Type) where
  client : NacosClient
  loginAttempts : List String
  request : Option Request
  result : Except GoError α
deriving Repr, DecidableEq

/-- The request built by `listConfigsV1` (parameter names `group` and
`tenant`, token as the `accessToken` query parameter, SPAS headers last). -/
def listV1Request (c1 : NacosClient) (dataID groupName ns : String)
    (pageNo pageSize : Int) (nowMs : Nat) : Request :=
  let search := if dataID.contains '*' ∨ groupName.contains '*' then "blur" else "accurate"
  let req := ((((Request.empty "/nacos/v1/cs/configs").setQuery "search" search).setQuery
    "dataId" dataID).setQuery "group" groupName).setQuery "pageNo" (toString pageNo)
  let req := req.setQuery "pageSize" (toString pageSize)
  let req := if ns ≠ "" then req.setQuery "tenant" ns else req
  let req := if c1.AuthType = AuthTypeNacos ∧ c1.AccessToken ≠ "" then
      req.setQuery "accessToken" c1.AccessToken
    else req
  setSpasHeaders c1 req ns groupName nowMs

/-- Response handling of `listConfigsV1`: HTTP 200 with a decodable bare
`ConfigListResponse` body, else an error. -/
def handleListV1 (c1 : NacosClient) (att : List String) (req : Request)
    (out : DataOutcome) : OpResult ConfigListResponse :=
  match out with
  | .netErr => ⟨c1, att, some req, .error (.reqNetErr "v1 list")⟩
  | .resp r =>
    if r.status ≠ 200 then ⟨c1, att, some req, .error (.v1ListBadStatus r.status)⟩
    else
      match r.listJson with
      | none => ⟨c1, att, some req, .error (.jsonUnmarshalErr "v1 list")⟩
      | some cl => ⟨c1, att, some req, .ok cl⟩

/-- `listConfigsV1`: the legacy list operation (`GET /nacos/v1/cs/configs`
with `group`/`tenant` parameters, bare `ConfigListResponse` body). -/
def listConfigsV1 (c : NacosClient) (dataID groupName ns : String)
    (pageNo pageSize : Int) (env : ListEnv) : OpResult ConfigListResponse :=
  let er := ensureTokenValid c env.login
  match er.error with
  | some e => ⟨er.client, er.attempts, none, .error e⟩
  | none =>
    handleListV1 er.client er.attempts
      (listV1Request er.client dataID groupName ns pageNo pageSize env.nowMs) env.v1

/-- The request built by the modern path of `ListConfigs` (parameter names
`groupName` and `namespaceId`, bearer token header, SPAS headers last). -/
def listV3Request (c1 : NacosClient) (dataID groupName ns : String)
    (pageNo pageSize : Int) (nowMs : Nat) : Request :=
  let search := if dataID.contains '*' ∨ groupName.contains '*' then "blur" else "accurate"
  let req := ((((Request.empty "/nacos/v3/admin/cs/config/list").setQuery "search"
    search).setQuery "dataId" dataID).setQuery "groupName" groupName).setQuery
    "pageNo" (toString pageNo)
  let req := req.setQuery "pageSize" (toString pageSize)
  let req := if ns ≠ "" then req.setQuery "namespaceId" ns else req
  let req := if c1.AuthType = AuthTypeNacos ∧ c1.AccessToken ≠ "" then
      req.setHeader "Authorization" ("Bearer " ++ c1.AccessToken)
    else req
  setSpasHeaders c1 req ns groupName nowMs

/-- Response handling of the modern `ListConfigs` path: any non-200 is an
immediate error; then the `{code,message,data}` envelope is decoded, `code ≠ 0`
is an application error, and `data` must decode to a `ConfigListResponse`. -/
def handleListV3 (c1 : NacosClient) (att : List String) (req : Request)
    (out : DataOutcome) : OpResult ConfigListResponse :=
  match out with
  | .netErr => ⟨c1, att, some req, .error (.reqNetErr "list")⟩
  | .resp r =>
    if r.status ≠ 200 then
      ⟨c1, att, some req, .error (.badStatus "list" r.status r.body)⟩
    else
      match r.v3Json with
      | none => ⟨c1, att, some req, .error (.jsonUnmarshalErr "list envelope")⟩
      | some v3r =>
        if v3r.code ≠ 0 then
          ⟨c1, att, some req, .error (.v3AppError v3r.code v3r.message)⟩
        else
          match v3r.dataJson with
          | none => ⟨c1, att, some req, .error (.jsonUnmarshalErr "list data")⟩
          | some cl => ⟨c1, att, some req, .ok cl⟩

/-- `ListConfigs`: ensures the token, defaults the namespace, dispatches on
`authLoginVersion` (`"v1"` → legacy; `"v3"` or unresolved → modern). -/
def ListConfigs (c : NacosClient) (dataID groupName namespaceID : String)
    (pageNo pageSize : Int) (env : ListEnv) : OpResult ConfigListResponse :=
  let er := ensureTokenValid c env.login
  match er.error with
  | some e => ⟨er.client, er.attempts, none, .error e⟩
  | none =>
    let c1 := er.client
    let ns := if namespaceID = "" then c1.Namespace else namespaceID
    if c1.authLoginVersion = "v1" then
      let r := listConfigsV1 c1 dataID groupName ns pageNo pageSize env
      { r with loginAttempts := er.attempts ++ r.loginAttempts }
    else
      handleListV3 c1 er.attempts
        (listV3Request c1 dataID groupName ns pageNo pageSize env.nowMs) env.v3

/-- The request built by `GetConfig` (legacy parameter names, session
namespace as `tenant`). -/
def getRequest (c1 : NacosClient) (dataID group : String) (nowMs : Nat) : Request :=
  let req := ((Request.empty "/nacos/v1/cs/configs").setQuery "dataId" dataID).setQuery
    "group" group
  let req := if c1.Namespace ≠ "" then req.setQuery "tenant" c1.Namespace else req
  let req := if c1.AuthType = AuthTypeNacos ∧ c1.AccessToken ≠ "" then
      req.setQuery "accessToken" c1.AccessToken
    else req
  setSpasHeaders c1 req c1.Namespace group nowMs

/-- Response handling of `GetConfig`: the raw body on HTTP 200. -/
def handleGet (c1 : NacosClient) (att : List String) (req : Request)
    (out : DataOutcome) : OpResult String :=
  match out with
  | .netErr => ⟨c1, att, some req, .error (.reqNetErr "get")⟩
  | .resp r =>
    if r.status ≠ 200 then ⟨c1, att, some req, .error (.getBadStatus r.status)⟩
    else ⟨c1, att, some req, .ok r.body⟩

/-- `GetConfig`: always the legacy-shaped endpoint; returns the raw body on
HTTP 200. -/
def GetConfig (c : NacosClient) (dataID group : String) (env : SimpleEnv) :
    OpResult String :=
  let er := ensureTokenValid c env.login
  match er.error with
  | some e => ⟨er.client, er.attempts, none, .error e⟩
  | none => handleGet er.client er.attempts (getRequest er.client dataID group env.nowMs) env.http

/-- The request built by `PublishConfig` (form fields, session namespace as
`tenant`). -/
def publishRequest (c1 : NacosClient) (dataID group content : String) (nowMs : Nat) :
    Request :=
  let req := (((Request.empty "/nacos/v3/cs/configs").setForm "dataId" dataID).setForm
    "group" group).setForm "content" content
  let req := if c1.Namespace ≠ "" then req.setForm "tenant" c1.Namespace else req
  let req := if c1.AuthType = AuthTypeNacos ∧ c1.AccessToken ≠ "" then
      req.setForm "accessToken" c1.AccessToken
    else req
  setSpasHeaders c1 req c1.Namespace group nowMs

/-- Response handling of `PublishConfig`: success iff HTTP 200 with body
literally `"true"`. -/
def handlePublish (c1 : NacosClient) (att : List String) (req : Request)
    (out : DataOutcome) : OpResult Unit :=
  match out with
  | .netErr => ⟨c1, att, some req, .error (.reqNetErr "publish")⟩
  | .resp r =>
    if r.status ≠ 200 ∨ r.body ≠ "true" then
      ⟨c1, att, some req, .error (.publishFailed r.status r.body)⟩
    else ⟨c1, att, some req, .ok ()⟩

/-- `PublishConfig`: POSTs the form fields; success iff HTTP 200 with body
literally `"true"`. -/
def PublishConfig (c : NacosClient) (dataID group content : String) (env : SimpleEnv) :
    OpResult Unit :=
  let er := ensureTokenValid c env.login
  match er.error with
  | some e => ⟨er.client, er.attempts, none, .error e⟩
  | none =>
    handlePublish er.client er.attempts
      (publishRequest er.client dataID group content env.nowMs) env.http

/-- `true` iff a decoded login body carries a non-empty `accessToken`
string — the acceptance condition of `applyLoginResponse`. -/
def jsonHasToken : Option LoginBodyJson → Bool
  | some j =>
    match j.accessToken with
    | some t => t ≠ ""
    | none => false
  | none => false

/-- The spec's acceptance condition for one login attempt: HTTP 200 and a
well-formed non-empty token field. -/
def loginAccepted : LoginOutcome → Bool
  | .netErr => false
  | .resp r => r.status == 200 && jsonHasToken r.json

/-- The credential-identity fields of the session, which no operation may
change: everything except token, expiry and resolved generation. -/
def sameIdentity (a b : NacosClient) : Prop :=
  a.ServerAddr = b.ServerAddr ∧ a.Namespace = b.Namespace ∧ a.AuthType = b.AuthType ∧
  a.Username = b.Username ∧ a.Password = b.Password ∧ a.AccessKey = b.AccessKey ∧
  a.SecretKey = b.SecretKey

theorem sameIdentity_refl (a : NacosClient) : sameIdentity a a := by
  simp [sameIdentity]

theorem sameIdentity_trans {a b c : NacosClient} (h1 : sameIdentity a b)
    (h2 : sameIdentity b c) : sameIdentity a c := by
  obtain ⟨h1a, h1b, h1c, h1d, h1e, h1f, h1g⟩ := h1
  obtain ⟨h2a, h2b, h2c, h2d, h2e, h2f, h2g⟩ := h2
  exact ⟨h1a.trans h2a, h1b.trans h2b, h1c.trans h2c, h1d.trans h2d, h1e.trans h2e,
    h1f.trans h2f, h1g.trans h2g⟩

/-! ## Lemmas about `applyLoginResponse` -/

theorem applyLoginResponse_identity (c : NacosClient) (now : Nat)
    (j : Option LoginBodyJson) : sameIdentity (applyLoginResponse c now j).1 c := by
  rcases j with _ | ⟨_ | t, ttl⟩ <;> simp only [applyLoginResponse, sameIdentity] <;>
    (try split_ifs) <;> simp_all

theorem applyLoginResponse_version (c : NacosClient) (now : Nat)
    (j : Option LoginBodyJson) :
    (applyLoginResponse c now j).1.authLoginVersion = c.authLoginVersion := by
  rcases j with _ | ⟨_ | t, ttl⟩ <;> simp only [applyLoginResponse] <;>
    (try split_ifs) <;> simp_all

theorem applyLoginResponse_false (c : NacosClient) (now : Nat) (j : Option LoginBodyJson)
    (h : (applyLoginResponse c now j).2 = false) : (applyLoginResponse c now j).1 = c := by
  rcases j with _ | ⟨_ | t, ttl⟩ <;> simp only [applyLoginResponse] at h ⊢ <;>
    (try split_ifs at h ⊢) <;> simp_all

theorem applyLoginResponse_snd (c : NacosClient) (now : Nat) (j : Option LoginBodyJson) :
    (applyLoginResponse c now j).2 = jsonHasToken j := by
  rcases j with _ | ⟨_ | t, ttl⟩ <;> simp only [applyLoginResponse, jsonHasToken] <;>
    (try split_ifs) <;> simp_all

theorem applyLoginResponse_true (c : NacosClient) (now : Nat) (j : Option LoginBodyJson) :
    (applyLoginResponse c now j).2 = true ↔
      ∃ jj t, j = some jj ∧ jj.accessToken = some t ∧ t ≠ "" := by
  rcases j with _ | ⟨_ | t, ttl⟩ <;> simp only [applyLoginResponse] <;>
    (try split_ifs) <;> simp_all

/-! ## Lemmas about `loginV1` -/

theorem loginV1_attempts (c : NacosClient) (env : LoginEnv) :
    (loginV1 c env).attempts = ["v1"] := by
  unfold loginV1
  rcases henv : env.v1 with _ | r
  · rfl
  · rcases happ : applyLoginResponse c env.now r.json with ⟨c1, ok⟩
    dsimp only
    rw [happ]
    split_ifs <;> simp_all

theorem loginV1_identity (c : NacosClient) (env : LoginEnv) :
    sameIdentity (loginV1 c env).client c := by
  unfold loginV1
  rcases henv : env.v1 with _ | r
  · exact sameIdentity_refl c
  · rcases happ : applyLoginResponse c env.now r.json with ⟨c1, ok⟩
    have hid := applyLoginResponse_identity c env.now r.json
    rw [happ] at hid
    dsimp only
    rw [happ]
    split_ifs
    · exact sameIdentity_refl c
    · cases ok
      · simp_all
      · simpa [sameIdentity] using hid
    · exact hid

theorem loginV1_error_unchanged (c : NacosClient) (env : LoginEnv)
    (h : (loginV1 c env).error.isSome) : (loginV1 c env).client = c := by
  unfold loginV1 at h ⊢
  rcases henv : env.v1 with _ | r
  · rfl
  · rcases happ : applyLoginResponse c env.now r.json with ⟨c1, ok⟩
    have hfalse := applyLoginResponse_false c env.now r.json
    rw [happ] at hfalse
    rw [henv] at h
    dsimp only at h ⊢
    rw [happ] at h ⊢
    split_ifs at h ⊢ <;> cases ok <;> simp_all

theorem loginV1_error_iff (c : NacosClient) (env : LoginEnv) :
    (loginV1 c env).error = none ↔ loginAccepted env.v1 = true := by
  unfold loginV1 loginAccepted
  rcases henv : env.v1 with _ | r
  · simp
  · rcases happ : applyLoginResponse c env.now r.json with ⟨c1, ok⟩
    have hsnd := applyLoginResponse_snd c env.now r.json
    rw [happ] at hsnd
    dsimp only
    rw [happ]
    split_ifs <;> cases ok <;> simp_all

theorem loginV1_success_version (c : NacosClient) (env : LoginEnv)
    (h : (loginV1 c env).error = none) : (loginV1 c env).client.authLoginVersion = "v1" := by
  unfold loginV1 at h ⊢
  rcases henv : env.v1 with _ | r
  · rw [henv] at h
    simp at h
  · rcases happ : applyLoginResponse c env.now r.json with ⟨c1, ok⟩
    rw [henv] at h
    dsimp only at h ⊢
    rw [happ] at h ⊢
    split_ifs at h ⊢ <;> cases ok <;> simp_all

/-! ## Lemmas about `login` -/

theorem login_fixed_v1 (c : NacosClient) (env : LoginEnv)
    (h : c.authLoginVersion = "v1") :
    (login c env).attempts = ["v1"] ∧
    ((login c env).error = none ↔ loginAccepted env.v1 = true) ∧
    (login c env).client.authLoginVersion = "v1" := by
  have hv1 : login c env = loginV1 c env := by
    unfold login
    rw [if_neg]
    simp [h]
  rw [hv1]
  refine ⟨loginV1_attempts c env, loginV1_error_iff c env, ?_⟩
  rcases he : (loginV1 c env).error with _ | e
  · exact loginV1_success_version c env he
  · have := loginV1_error_unchanged c env (by rw [he]; rfl)
    rw [this, h]

theorem login_fixed_v3 (c : NacosClient) (env : LoginEnv)
    (h : c.authLoginVersion = "v3") :
    (login c env).attempts = ["v3"] ∧
    ((login c env).error = none ↔ loginAccepted env.v3 = true) ∧
    (login c env).client.authLoginVersion = "v3" := by
  unfold login
  rcases henv : env.v3 with _ | r
  · simp [h, loginAccepted]
  · rcases happ : applyLoginResponse c env.now r.json with ⟨c1, ok⟩
    have hsnd := applyLoginResponse_snd c env.now r.json
    have hver := applyLoginResponse_version c env.now r.json
    rw [happ] at hsnd hver
    simp only [h, loginAccepted, or_true, if_true, happ]
    split_ifs <;> cases ok <;> simp_all [jsonHasToken]

theorem login_unresolved_accepted (c : NacosClient) (env : LoginEnv)
    (h : c.authLoginVersion = "") (hacc : loginAccepted env.v3 = true) :
    (login c env).error = none ∧ (login c env).client.authLoginVersion = "v3" ∧
    (login c env).attempts = ["v3"] := by
  unfold login
  rcases henv : env.v3 with _ | r
  · rw [henv] at hacc
    simp [loginAccepted] at hacc
  · rw [henv] at hacc
    simp only [loginAccepted, Bool.and_eq_true, beq_iff_eq] at hacc
    obtain ⟨hst, htok⟩ := hacc
    rcases happ : applyLoginResponse c env.now r.json with ⟨c1, ok⟩
    have hsnd := applyLoginResponse_snd c env.now r.json
    rw [happ] at hsnd
    simp only [h, true_or, if_true, happ]
    split_ifs <;> simp_all

theorem login_unresolved_rejected (c : NacosClient) (env : LoginEnv)
    (h : c.authLoginVersion = "") (hacc : loginAccepted env.v3 = false) :
    (login c env).attempts = ["v3", "v1"] ∧
    ((login c env).error = none ↔ loginAccepted env.v1 = true) ∧
    ((login c env).error = none → (login c env).client.authLoginVersion = "v1") := by
  have hne : ¬("" = "v3") := by decide
  unfold login
  simp only [h, true_or, if_true]
  rcases henv : env.v3 with _ | r
  · rw [henv] at hacc
    simp only [hne, if_false]
    refine ⟨by simp [loginV1_attempts], by simp [loginV1_error_iff], ?_⟩
    intro he
    simpa using loginV1_success_version c env (by simpa using he)
  · rw [henv] at hacc
    simp only [loginAccepted] at hacc
    rcases happ : applyLoginResponse c env.now r.json with ⟨c1, ok⟩
    have hsnd := applyLoginResponse_snd c env.now r.json
    rw [happ] at hsnd
    simp only [happ]
    split_ifs with hst hok
    · exfalso
      rw [hst] at hacc
      simp only [beq_self_eq_true, Bool.true_and] at hacc
      rw [← hsnd] at hacc
      simp [hok] at hacc
    · simp only [hne, if_false]
      refine ⟨by simp [loginV1_attempts], by simp [loginV1_error_iff], ?_⟩
      intro he
      simpa using loginV1_success_version c1 env (by simpa using he)
    · simp only [hne, if_false]
      refine ⟨by simp [loginV1_attempts], by simp [loginV1_error_iff], ?_⟩
      intro he
      simpa using loginV1_success_version c env (by simpa using he)

theorem login_error_unchanged (c : NacosClient) (env : LoginEnv)
    (h : (login c env).error.isSome) : (login c env).client = c := by
  by_cases hv3 : c.authLoginVersion = "v3"
  · unfold login at h ⊢
    simp only [hv3, or_true, if_true] at h ⊢
    rcases henv : env.v3 with _ | r <;> simp only [henv] at h ⊢
    rcases happ : applyLoginResponse c env.now r.json with ⟨c1, ok⟩
    have hfalse := applyLoginResponse_false c env.now r.json
    rw [happ] at hfalse
    simp only [happ] at h ⊢
    split_ifs at h ⊢ <;> cases ok <;> simp_all
  · by_cases hve : c.authLoginVersion = ""
    · unfold login at h ⊢
      simp only [hve, true_or, if_true] at h ⊢
      have hne : ¬("" = "v3") := by decide
      rcases henv : env.v3 with _ | r <;> simp only [henv, hne, if_false] at h ⊢
      · exact loginV1_error_unchanged c env h
      · rcases happ : applyLoginResponse c env.now r.json with ⟨c1, ok⟩
        have hfalse := applyLoginResponse_false c env.now r.json
        rw [happ] at hfalse
        simp only [happ] at h ⊢
        split_ifs at h ⊢ with hst hok
        · simp at h
        · cases ok
          · have hc1 : c1 = c := hfalse rfl
            rw [hc1] at h ⊢
            exact loginV1_error_unchanged c env h
          · simp at hok
        · exact loginV1_error_unchanged c env h
    · have hcond : ¬(c.authLoginVersion = "" ∨ c.authLoginVersion = "v3") := by
        simp [hv3, hve]
      unfold login at h ⊢
      rw [if_neg hcond] at h ⊢
      exact loginV1_error_unchanged c env h

theorem login_identity (c : NacosClient) (env : LoginEnv) :
    sameIdentity (login c env).client c := by
  by_cases hv3 : c.authLoginVersion = "v3"
  · unfold login
    simp only [hv3, or_true, if_true]
    rcases henv : env.v3 with _ | r
    · exact sameIdentity_refl c
    · rcases happ : applyLoginResponse c env.now r.json with ⟨c1, ok⟩
      have hid := applyLoginResponse_identity c env.now r.json
      rw [happ] at hid
      simp only [happ]
      split_ifs <;> cases ok <;> simp_all [sameIdentity]
  · by_cases hve : c.authLoginVersion = ""
    · unfold login
      simp only [hve, true_or, if_true]
      have hne : ¬("" = "v3") := by decide
      rcases henv : env.v3 with _ | r <;> simp only [henv, hne, if_false]
      · exact loginV1_identity c env
      · rcases happ : applyLoginResponse c env.now r.json with ⟨c1, ok⟩
        have hid := applyLoginResponse_identity c env.now r.json
        rw [happ] at hid
        simp only [happ]
        split_ifs with hst hok
        · cases ok
          · simp at hok
          · exact hid
        · exact sameIdentity_trans (loginV1_identity c1 env) hid
        · exact loginV1_identity c env
    · have hcond : ¬(c.authLoginVersion = "" ∨ c.authLoginVersion = "v3") := by
        simp [hv3, hve]
      unfold login
      rw [if_neg hcond]
      exact loginV1_identity c env

theorem login_attempts_ne_nil (c : NacosClient) (env : LoginEnv) :
    (login c env).attempts ≠ [] := by
  by_cases hv : (c.authLoginVersion = "" ∨ c.authLoginVersion = "v3")
  · unfold login
    rw [if_pos hv]
    rcases henv : env.v3 with _ | r
    · dsimp only
      split_ifs <;> simp
    · rcases happ : applyLoginResponse c env.now r.json with ⟨c1, ok⟩
      dsimp only
      rw [happ]
      split_ifs <;> simp
  · unfold login
    rw [if_neg hv]
    have := loginV1_attempts c env
    simp [this]

/-! ## Lemmas about `ensureTokenValid` -/

theorem ensureTokenValid_not_nacos (c : NacosClient) (env : LoginEnv)
    (h : c.AuthType ≠ AuthTypeNacos) : ensureTokenValid c env = ⟨c, none, []⟩ := by
  unfold ensureTokenValid
  rw [if_pos h]

theorem ensureTokenValid_attempts_iff (c : NacosClient) (env : LoginEnv)
    (h : c.AuthType = AuthTypeNacos) :
    ((ensureTokenValid c env).attempts ≠ [] ↔
      (c.AccessToken = "" ∨ ∃ e, c.TokenExpireAt = some e ∧ env.now + 5 > e)) := by
  unfold ensureTokenValid
  rw [if_neg (by simp [h])]
  split_ifs with htok
  · simp [htok, login_attempts_ne_nil c env]
  · rcases hexp : c.TokenExpireAt with _ | e
    · simp [htok, hexp]
    · dsimp only
      split_ifs with hnow
      · simp [login_attempts_ne_nil c env, hexp, hnow]
      · simp [htok, hexp, hnow]

theorem ensureTokenValid_identity (c : NacosClient) (env : LoginEnv) :
    sameIdentity (ensureTokenValid c env).client c := by
  unfold ensureTokenValid
  split_ifs
  · exact sameIdentity_refl c
  · exact login_identity c env
  · rcases hexp : c.TokenExpireAt with _ | e
    · exact sameIdentity_refl c
    · dsimp only
      split_ifs
      · exact login_identity c env
      · exact sameIdentity_refl c

theorem ensureTokenValid_error_unchanged (c : NacosClient) (env : LoginEnv)
    (h : (ensureTokenValid c env).error.isSome) : (ensureTokenValid c env).client = c := by
  unfold ensureTokenValid at h ⊢
  split_ifs at h ⊢
  · rfl
  · exact login_error_unchanged c env h
  · rcases hexp : c.TokenExpireAt with _ | e <;> simp only [hexp] at h ⊢
    split_ifs at h ⊢
    · exact login_error_unchanged c env h
    · rfl

theorem ensureTokenValid_version_fixed (c : NacosClient) (env : LoginEnv)
    (hv : c.authLoginVersion = "v3" ∨ c.authLoginVersion = "v1") :
    (ensureTokenValid c env).client.authLoginVersion = c.authLoginVersion := by
  have hlogin : (login c env).client.authLoginVersion = c.authLoginVersion := by
    rcases hv with hv | hv
    · rw [(login_fixed_v3 c env hv).2.2, hv]
    · rw [(login_fixed_v1 c env hv).2.2, hv]
  unfold ensureTokenValid
  split_ifs
  · rfl
  · exact hlogin
  · rcases hexp : c.TokenExpireAt with _ | e
    · rfl
    · dsimp only
      split_ifs
      · exact hlogin
      · rfl

/-! ## Lemmas about requests and `setSpasHeaders` -/

theorem getKV_setKV_same (l : List (String × String)) (k v : String) :
    getKV (setKV l k v) k = some v := by
  induction l with
  | nil => simp [setKV, getKV]
  | cons p rest ih =>
    by_cases hk : p.1 = k
    · simp [setKV, getKV, hk]
    · simp [setKV, getKV, hk, ih]

theorem getKV_setKV_other (l : List (String × String)) (k v k2 : String) (h : k2 ≠ k) :
    getKV (setKV l k v) k2 = getKV l k2 := by
  induction l with
  | nil => simp [setKV, getKV, Ne.symm h]
  | cons p rest ih =>
    by_cases hk : p.1 = k
    · by_cases hk2 : p.1 = k2
      · exfalso
        exact h (hk2 ▸ hk)
      · simp [setKV, getKV, hk, hk2, Ne.symm h]
    · simp [setKV, getKV, hk, ih]

theorem setQuery_headers (r : Request) (k v : String) :
    (r.setQuery k v).headers = r.headers := rfl

theorem setForm_headers (r : Request) (k v : String) :
    (r.setForm k v).headers = r.headers := rfl

theorem setSpasHeaders_inactive (c : NacosClient) (req : Request) (tenant group : String)
    (nowMs : Nat) (h : c.AuthType ≠ AuthTypeAliyun ∨ c.AccessKey = "" ∨ c.SecretKey = "") :
    setSpasHeaders c req tenant group nowMs = req := by
  unfold setSpasHeaders
  rw [if_pos h]

theorem setSpasHeaders_active (c : NacosClient) (req : Request) (tenant group : String)
    (nowMs : Nat) (h1 : c.AuthType = AuthTypeAliyun) (h2 : c.AccessKey ≠ "")
    (h3 : c.SecretKey ≠ "") :
    (setSpasHeaders c req tenant group nowMs).getHeader "timeStamp" =
        some (toString nowMs) ∧
    (setSpasHeaders c req tenant group nowMs).getHeader "Spas-AccessKey" =
        some c.AccessKey ∧
    (setSpasHeaders c req tenant group nowMs).getHeader "Spas-Signature" =
        some (spasSign (getSignData tenant group (toString nowMs)) c.SecretKey) := by
  unfold setSpasHeaders
  rw [if_neg (by simp [h1, h2, h3])]
  refine ⟨?_, ?_, ?_⟩ <;>
    simp [Request.getHeader, Request.setHeader, getKV_setKV_same, getKV_setKV_other,
      String.ne_of_lt, show ("timeStamp" : String) ≠ "Spas-Signature" by decide,
      show ("timeStamp" : String) ≠ "Spas-AccessKey" by decide,
      show ("Spas-AccessKey" : String) ≠ "Spas-Signature" by decide]

/-! ## Supporting evidence that the embedded crypto is the real thing -/

/-- RFC 3174 test vector: SHA-1 of `"abc"`. -/
theorem sha1_rfc3174_abc :
    sha1 (strBytes "abc") =
      [169, 153, 62, 54, 71, 6, 129, 106, 186, 62, 37, 113, 120, 80, 194, 108,
       156, 208, 216, 157] := by
  decide

/-- RFC 2202 test case 2: HMAC-SHA1 with key `"Jefe"`. -/
theorem hmacSha1_rfc2202_case2 :
    hmacSha1 (strBytes "Jefe") (strBytes "what do ya want for nothing?") =
      [239, 252, 223, 106, 229, 235, 47, 162, 210, 116, 22, 213, 241, 132, 223,
       156, 37, 154, 124, 121] := by
  decide

/-! ## Claim theorems -/

/-- C1: for every tenant, group and timestamp, `getSignData` follows the
four-case canonicalization table (empty/empty → timestamp; empty/group →
group+"+"+timestamp; tenant/empty → tenant+"+"+timestamp; both →
tenant+"+"+group+"+"+timestamp), and `spasSign` of that payload is the
base64 encoding of the HMAC-SHA1 of the payload keyed by the secret key. -/
theorem c1_sign_canonicalization (tenant group timeStamp secretKey : String) :
    getSignData tenant group timeStamp =
      (if tenant = "" ∧ group = "" then timeStamp
       else if tenant = "" ∧ group ≠ "" then group ++ "+" ++ timeStamp
       else if tenant ≠ "" ∧ group = "" then tenant ++ "+" ++ timeStamp
       else tenant ++ "+" ++ group ++ "+" ++ timeStamp) ∧
    spasSign (getSignData tenant group timeStamp) secretKey =
      base64Encode (hmacSha1 (strBytes secretKey)
        (strBytes (getSignData tenant group timeStamp))) := by
  refine ⟨?_, rfl⟩
  unfold getSignData
  by_cases ht : tenant = "" <;> by_cases hg : group = "" <;> simp [ht, hg]

/-- C4: for a `nacos` (CredentialBased) session, `ensureTokenValid` performs
a login exactly when no token is held or a recorded expiry lies within the
5-second safety margin of now; for an `aliyun` (KeyPairBased) session it is
a no-op returning success. -/
theorem c4_ensure_valid (c : NacosClient) (env : LoginEnv) :
    (c.AuthType = AuthTypeNacos →
      ((ensureTokenValid c env).attempts ≠ [] ↔
        (c.AccessToken = "" ∨ ∃ e, c.TokenExpireAt = some e ∧ env.now + 5 > e))) ∧
    (c.AuthType = AuthTypeAliyun → ensureTokenValid c env = ⟨c, none, []⟩) := by
  refine ⟨fun h => ensureTokenValid_attempts_iff c env h, fun h => ?_⟩
  exact ensureTokenValid_not_nacos c env (by rw [h]; decide)

/-- A concrete credential-based session holding an expired token. -/
def cW4 : NacosClient :=
  { ServerAddr := "127.0.0.1:8848", Namespace := "public", AuthType := "nacos",
    Username := "nacos", Password := "nacos", AccessKey := "", SecretKey := "",
    AccessToken := "tok", TokenExpireAt := some 100, authLoginVersion := "v1" }

/-- A login environment where only the legacy endpoint answers. -/
def envW4 : LoginEnv :=
  { v3 := .netErr,
    v1 := .resp ⟨200, "ok", some ⟨some "tok2", some 1800⟩⟩,
    now := 98 }

/-- Witness for C4 at a concrete expired-token session. -/
theorem c4_ensure_valid_witness :
    ((ensureTokenValid cW4 envW4).attempts ≠ [] ↔
      (cW4.AccessToken = "" ∨ ∃ e, cW4.TokenExpireAt = some e ∧ envW4.now + 5 > e)) :=
  (c4_ensure_valid cW4 envW4).1 rfl

/-- C10: `login` is atomic on failure — when it returns an error, the stored
token, the recorded expiry and the resolved generation are unchanged; and
`applyLoginResponse` mutates the client only for a decoded body carrying a
non-empty `accessToken`. -/
theorem c10_login_atomic (c : NacosClient) (env : LoginEnv) :
    ((login c env).error.isSome →
      (login c env).client.AccessToken = c.AccessToken ∧
      (login c env).client.TokenExpireAt = c.TokenExpireAt ∧
      (login c env).client.authLoginVersion = c.authLoginVersion) ∧
    (∀ j : Option LoginBodyJson,
      (applyLoginResponse c env.now j).1 ≠ c →
        ∃ jj t, j = some jj ∧ jj.accessToken = some t ∧ t ≠ "") := by
  constructor
  · intro h
    rw [login_error_unchanged c env h]
    exact ⟨rfl, rfl, rfl⟩
  · intro j hne
    by_cases hok : (applyLoginResponse c env.now j).2 = true
    · exact (applyLoginResponse_true c env.now j).mp hok
    · exact absurd (applyLoginResponse_false c env.now j (by simpa using hok)) hne

/-- A fresh credential-based session with no token. -/
def cW10 : NacosClient :=
  { ServerAddr := "127.0.0.1:8848", Namespace := "public", AuthType := "nacos",
    Username := "nacos", Password := "nacos", AccessKey := "", SecretKey := "",
    AccessToken := "", TokenExpireAt := none, authLoginVersion := "" }

/-- An environment where both login endpoints are unreachable. -/
def envFail : LoginEnv := { v3 := .netErr, v1 := .netErr, now := 0 }

/-- Witness for C10: a concrete failed login leaves the session unchanged. -/
theorem c10_login_atomic_witness :
    (login cW10 envFail).client.AccessToken = cW10.AccessToken ∧
    (login cW10 envFail).client.TokenExpireAt = cW10.TokenExpireAt ∧
    (login cW10 envFail).client.authLoginVersion = cW10.authLoginVersion :=
  (c10_login_atomic cW10 envFail).1 (by decide)

theorem NewNacosClient_AuthType (serverAddr ns authType username password accessKey
    secretKey : String) (env : LoginEnv) :
    ((NewNacosClient serverAddr ns authType username password accessKey secretKey env).1).AuthType =
      (initClient serverAddr ns authType username password accessKey secretKey).AuthType := by
  unfold NewNacosClient
  dsimp only
  split_ifs
  · rcases herr : (login (initClient serverAddr ns authType username password accessKey
        secretKey) env).error with _ | e <;> simp only [herr] <;>
      exact (login_identity _ env).2.2.1
  · rfl

/-- C9: with an empty auth-type argument, construction infers `aliyun`
exactly when both the access key and the secret key are non-empty, and
`nacos` otherwise, regardless of username or password. -/
theorem c9_auth_type_inference (serverAddr ns username password accessKey secretKey : String)
    (env : LoginEnv) :
    ((NewNacosClient serverAddr ns "" username password accessKey secretKey env).1).AuthType =
      (if accessKey ≠ "" ∧ secretKey ≠ "" then AuthTypeAliyun else AuthTypeNacos) := by
  rw [NewNacosClient_AuthType]
  rfl

/-! ## Handler and request-builder lemmas -/

theorem handleListV1_parts (c1 : NacosClient) (att : List String) (req : Request)
    (out : DataOutcome) :
    (handleListV1 c1 att req out).client = c1 ∧
    (handleListV1 c1 att req out).request = some req ∧
    (handleListV1 c1 att req out).loginAttempts = att := by
  rcases out with _ | r
  · exact ⟨rfl, rfl, rfl⟩
  · dsimp only [handleListV1]
    split_ifs
    · exact ⟨rfl, rfl, rfl⟩
    · rcases r.listJson with _ | cl <;> exact ⟨rfl, rfl, rfl⟩

theorem handleListV3_parts (c1 : NacosClient) (att : List String) (req : Request)
    (out : DataOutcome) :
    (handleListV3 c1 att req out).client = c1 ∧
    (handleListV3 c1 att req out).request = some req ∧
    (handleListV3 c1 att req out).loginAttempts = att := by
  rcases out with _ | r
  · exact ⟨rfl, rfl, rfl⟩
  · dsimp only [handleListV3]
    split_ifs
    · exact ⟨rfl, rfl, rfl⟩
    · rcases r.v3Json with _ | v3r
      · exact ⟨rfl, rfl, rfl⟩
      · dsimp only
        split_ifs
        · exact ⟨rfl, rfl, rfl⟩
        · rcases v3r.dataJson with _ | cl <;> exact ⟨rfl, rfl, rfl⟩

theorem handleGet_parts (c1 : NacosClient) (att : List String) (req : Request)
    (out : DataOutcome) :
    (handleGet c1 att req out).client = c1 ∧
    (handleGet c1 att req out).request = some req ∧
    (handleGet c1 att req out).loginAttempts = att := by
  rcases out with _ | r
  · exact ⟨rfl, rfl, rfl⟩
  · dsimp only [handleGet]
    split_ifs <;> exact ⟨rfl, rfl, rfl⟩

theorem handlePublish_parts (c1 : NacosClient) (att : List String) (req : Request)
    (out : DataOutcome) :
    (handlePublish c1 att req out).client = c1 ∧
    (handlePublish c1 att req out).request = some req ∧
    (handlePublish c1 att req out).loginAttempts = att := by
  rcases out with _ | r
  · exact ⟨rfl, rfl, rfl⟩
  · dsimp only [handlePublish]
    split_ifs <;> exact ⟨rfl, rfl, rfl⟩

@[simp] theorem Request_empty_url (u : String) : (Request.empty u).url = u := rfl

@[simp] theorem setQuery_url (r : Request) (k v : String) : (r.setQuery k v).url = r.url := rfl

@[simp] theorem setHeader_url (r : Request) (k v : String) :
    (r.setHeader k v).url = r.url := rfl

@[simp] theorem setForm_url (r : Request) (k v : String) : (r.setForm k v).url = r.url := rfl

@[simp] theorem setSpasHeaders_url (c : NacosClient) (r : Request) (tenant group : String)
    (nowMs : Nat) : (setSpasHeaders c r tenant group nowMs).url = r.url := by
  unfold setSpasHeaders
  split_ifs <;> rfl

theorem listV1Request_url (c1 : NacosClient) (dataID groupName ns : String)
    (pageNo pageSize : Int) (nowMs : Nat) :
    (listV1Request c1 dataID groupName ns pageNo pageSize nowMs).url =
      "/nacos/v1/cs/configs" := by
  unfold listV1Request
  dsimp only
  split_ifs <;> simp

theorem listV3Request_url (c1 : NacosClient) (dataID groupName ns : String)
    (pageNo pageSize : Int) (nowMs : Nat) :
    (listV3Request c1 dataID groupName ns pageNo pageSize nowMs).url =
      "/nacos/v3/admin/cs/config/list" := by
  unfold listV3Request
  dsimp only
  split_ifs <;> simp

theorem listConfigsV1_fixed (c : NacosClient) (dataID groupName ns : String)
    (pageNo pageSize : Int) (env : ListEnv)
    (hv : c.authLoginVersion = "v3" ∨ c.authLoginVersion = "v1") :
    (listConfigsV1 c dataID groupName ns pageNo pageSize env).client.authLoginVersion =
      c.authLoginVersion ∧
    (∀ r, (listConfigsV1 c dataID groupName ns pageNo pageSize env).request = some r →
      r.url = "/nacos/v1/cs/configs") := by
  unfold listConfigsV1
  have hv1 := ensureTokenValid_version_fixed c env.login hv
  rcases her : ensureTokenValid c env.login with ⟨c1, err, att⟩
  rw [her] at hv1
  dsimp only at hv1
  rcases err with _ | e
  · dsimp only
    obtain ⟨hc, hr, -⟩ := handleListV1_parts c1 att
      (listV1Request c1 dataID groupName ns pageNo pageSize env.nowMs) env.v1
    rw [hc, hr]
    refine ⟨hv1, fun r hr2 => ?_⟩
    injection hr2 with hre
    rw [← hre]
    exact listV1Request_url c1 dataID groupName ns pageNo pageSize env.nowMs
  · exact ⟨hv1, fun r hr2 => by cases hr2⟩

theorem ListConfigs_fixed (c : NacosClient) (dataID groupName namespaceID : String)
    (pageNo pageSize : Int) (env : ListEnv)
    (hv : c.authLoginVersion = "v3" ∨ c.authLoginVersion = "v1") :
    (ListConfigs c dataID groupName namespaceID pageNo pageSize env).client.authLoginVersion =
      c.authLoginVersion ∧
    (∀ r, (ListConfigs c dataID groupName namespaceID pageNo pageSize env).request = some r →
      r.url = (if c.authLoginVersion = "v1" then "/nacos/v1/cs/configs"
               else "/nacos/v3/admin/cs/config/list")) := by
  unfold ListConfigs
  have hv1 := ensureTokenValid_version_fixed c env.login hv
  rcases her : ensureTokenValid c env.login with ⟨c1, err, att⟩
  rw [her] at hv1
  dsimp only at hv1
  rcases err with _ | e
  · dsimp only
    by_cases hvv : c1.authLoginVersion = "v1"
    · rw [if_pos hvv]
      have hcv : c.authLoginVersion = "v1" := by rw [← hv1, hvv]
      obtain ⟨hc, hr⟩ := listConfigsV1_fixed c1 dataID groupName
        (if namespaceID = "" then c1.Namespace else namespaceID) pageNo pageSize env
        (Or.inr hvv)
      refine ⟨hc.trans hv1, fun r hr2 => ?_⟩
      rw [if_pos hcv]
      exact hr r hr2
    · rw [if_neg hvv]
      have hcv : ¬(c.authLoginVersion = "v1") := fun hh => hvv (hv1.trans hh)
      obtain ⟨hc, hr, -⟩ := handleListV3_parts c1 att
        (listV3Request c1 dataID groupName
          (if namespaceID = "" then c1.Namespace else namespaceID) pageNo pageSize env.nowMs)
        env.v3
      rw [hc, hr]
      refine ⟨hv1, fun r hr2 => ?_⟩
      injection hr2 with hre
      rw [← hre, if_neg hcv]
      exact listV3Request_url c1 dataID groupName _ pageNo pageSize env.nowMs
  · exact ⟨hv1, fun r hr2 => by cases hr2⟩

/-- C2: once the resolved generation is `"v3"` (Modern) or `"v1"` (Legacy),
any later login preserves it and only attempts that generation's endpoint,
and any later `ListConfigs` preserves it and issues its request against
that generation's endpoint. -/
theorem c2_generation_sticky (c : NacosClient)
    (hv : c.authLoginVersion = "v3" ∨ c.authLoginVersion = "v1") :
    (∀ env : LoginEnv,
      (login c env).client.authLoginVersion = c.authLoginVersion ∧
      (login c env).attempts = [c.authLoginVersion]) ∧
    (∀ (dataID groupName namespaceID : String) (pageNo pageSize : Int) (env : ListEnv),
      (ListConfigs c dataID groupName namespaceID pageNo pageSize env).client.authLoginVersion
        = c.authLoginVersion ∧
      (∀ r, (ListConfigs c dataID groupName namespaceID pageNo pageSize env).request = some r →
        r.url = (if c.authLoginVersion = "v1" then "/nacos/v1/cs/configs"
                 else "/nacos/v3/admin/cs/config/list"))) := by
  constructor
  · intro env
    rcases hv with h | h
    · obtain ⟨ha, -, hc⟩ := login_fixed_v3 c env h
      rw [h]
      exact ⟨hc, ha⟩
    · obtain ⟨ha, -, hc⟩ := login_fixed_v1 c env h
      rw [h]
      exact ⟨hc, ha⟩
  · intro dataID groupName namespaceID pageNo pageSize env
    exact ListConfigs_fixed c dataID groupName namespaceID pageNo pageSize env hv

/-- A session whose generation is fixed to Legacy, holding a live token. -/
def cW2 : NacosClient :=
  { ServerAddr := "127.0.0.1:8848", Namespace := "public", AuthType := "nacos",
    Username := "nacos", Password := "nacos", AccessKey := "", SecretKey := "",
    AccessToken := "tok", TokenExpireAt := none, authLoginVersion := "v1" }

/-- A list environment where both generations would answer 200. -/
def listEnvW : ListEnv :=
  { login := envW4, nowMs := 1700000000000,
    v3 := .resp ⟨200, "env", some ⟨0, "", some ⟨2, 1, 2, []⟩⟩, none⟩,
    v1 := .resp ⟨200, "bare", none, some ⟨2, 1, 2, []⟩⟩ }

/-- Witness for C2 at a concrete Legacy-fixed session. -/
theorem c2_generation_sticky_witness :
    ((login cW2 envW4).client.authLoginVersion = cW2.authLoginVersion ∧
     (login cW2 envW4).attempts = [cW2.authLoginVersion]) ∧
    ((ListConfigs cW2 "d" "g" "" 1 10 listEnvW).client.authLoginVersion =
        cW2.authLoginVersion ∧
     (∀ r, (ListConfigs cW2 "d" "g" "" 1 10 listEnvW).request = some r →
        r.url = (if cW2.authLoginVersion = "v1" then "/nacos/v1/cs/configs"
                 else "/nacos/v3/admin/cs/config/list"))) :=
  ⟨(c2_generation_sticky cW2 (Or.inr rfl)).1 envW4,
   (c2_generation_sticky cW2 (Or.inr rfl)).2 "d" "g" "" 1 10 listEnvW⟩

/-- C5: the modern login endpoint is tried first unless the generation is
fixed to Legacy; an attempt is accepted only on HTTP 200 with a well-formed
non-empty token; with unresolved generation any other outcome falls back to
the legacy endpoint, while with a fixed generation the failure is returned
with no fallback attempt. -/
theorem c5_login_protocol (c : NacosClient) (env : LoginEnv) :
    (c.authLoginVersion = "" →
      (loginAccepted env.v3 = true →
        (login c env).error = none ∧ (login c env).client.authLoginVersion = "v3" ∧
        (login c env).attempts = ["v3"]) ∧
      (loginAccepted env.v3 = false →
        (login c env).attempts = ["v3", "v1"] ∧
        ((login c env).error = none ↔ loginAccepted env.v1 = true))) ∧
    (c.authLoginVersion = "v3" →
      (login c env).attempts = ["v3"] ∧
      ((login c env).error = none ↔ loginAccepted env.v3 = true)) ∧
    (c.authLoginVersion = "v1" →
      (login c env).attempts = ["v1"] ∧
      ((login c env).error = none ↔ loginAccepted env.v1 = true)) := by
  refine ⟨fun h => ⟨fun hacc => login_unresolved_accepted c env h hacc,
      fun hacc => ⟨(login_unresolved_rejected c env h hacc).1,
        (login_unresolved_rejected c env h hacc).2.1⟩⟩,
    fun h => ⟨(login_fixed_v3 c env h).1, (login_fixed_v3 c env h).2.1⟩,
    fun h => ⟨(login_fixed_v1 c env h).1, (login_fixed_v1 c env h).2.1⟩⟩

/-- An environment where the modern login returns 404 and the legacy login
succeeds. -/
def envMix : LoginEnv :=
  { v3 := .resp ⟨404, "not found", none⟩,
    v1 := .resp ⟨200, "ok", some ⟨some "tok", some 1800⟩⟩,
    now := 0 }

/-- Witness for C5: a fresh session falls back to the legacy endpoint when
the modern login is rejected. -/
theorem c5_login_protocol_witness :
    (login cW10 envMix).attempts = ["v3", "v1"] ∧
    ((login cW10 envMix).error = none ↔ loginAccepted envMix.v1 = true) :=
  ((c5_login_protocol cW10 envMix).1 rfl).2 (by decide)

/-- C6: when the token-refresh step succeeds, `PublishConfig` succeeds iff
the HTTP status is 200 and the body is literally `"true"`; any other body or
status is a failure, and a network error is a failure too. -/
theorem c6_publish_success_iff (c : NacosClient) (dataID group content : String)
    (env : SimpleEnv) (hok : (ensureTokenValid c env.login).error = none) :
    (∀ r : DataHttpResp, env.http = .resp r →
      ((PublishConfig c dataID group content env).result = .ok () ↔
        (r.status = 200 ∧ r.body = "true"))) ∧
    (env.http = .netErr →
      (PublishConfig c dataID group content env).result = .error (.reqNetErr "publish")) := by
  unfold PublishConfig
  rcases her : ensureTokenValid c env.login with ⟨c1, err, att⟩
  rw [her] at hok
  dsimp only at hok
  subst hok
  dsimp only
  constructor
  · intro r hr
    rw [hr]
    dsimp only [handlePublish]
    split_ifs with hcond
    · have hrhs : ¬(r.status = 200 ∧ r.body = "true") := by tauto
      simp [hrhs]
    · simp only [not_or, not_not] at hcond
      simp [hcond.1, hcond.2]
  · intro hn
    rw [hn]
    rfl

/-- A publish response carrying HTTP 200 and the body `"true"`. -/
def pubRespW : DataHttpResp := ⟨200, "true", none, none⟩

/-- A publish environment around `pubRespW`. -/
def pubEnvW : SimpleEnv := { login := envW4, nowMs := 0, http := .resp pubRespW }

/-- Witness for C6 at a concrete 200/`"true"` response. -/
theorem c6_publish_success_iff_witness :
    ((PublishConfig cW2 "d" "g" "content" pubEnvW).result = .ok () ↔
      (pubRespW.status = 200 ∧ pubRespW.body = "true")) :=
  (c6_publish_success_iff cW2 "d" "g" "content" pubEnvW (by decide)).1 pubRespW rfl

/-- A KeyPairBased (aliyun) session with both keys, unresolved generation. -/
def cAli : NacosClient :=
  { ServerAddr := "127.0.0.1:8848", Namespace := "public", AuthType := "aliyun",
    Username := "", Password := "", AccessKey := "ak", SecretKey := "sk",
    AccessToken := "", TokenExpireAt := none, authLoginVersion := "" }

/-- A list environment where the modern endpoint answers 404 (not found) and
the legacy endpoint would answer 200 with a decodable body. -/
def listEnv404 : ListEnv :=
  { login := envFail, nowMs := 5,
    v3 := .resp ⟨404, "not found", none, none⟩,
    v1 := .resp ⟨200, "bare", none, some ⟨0, 1, 0, []⟩⟩ }

/-- C3 counterexample: for a KeyPairBased session with unresolved generation,
a 404 (not-found style status) from the modern list endpoint is surfaced as
an error, the legacy endpoint is NOT fallen back to even though it would
succeed, and the generation is NOT fixed to Legacy — contradicting the
claimed fallback behaviour. -/
theorem c3_counterexample :
    (ListConfigs cAli "d" "g" "" 1 10 listEnv404).result =
      .error (.badStatus "list" 404 "not found") ∧
    (ListConfigs cAli "d" "g" "" 1 10 listEnv404).client.authLoginVersion = "" ∧
    ((ListConfigs cAli "d" "g" "" 1 10 listEnv404).request.map Request.url) =
      some "/nacos/v3/admin/cs/config/list" ∧
    listEnv404.v1 = .resp ⟨200, "bare", none, some ⟨0, 1, 0, []⟩⟩ := by
  refine ⟨?_, ?_, ?_, ?_⟩ <;> rfl

/-- C3 amended: for a KeyPairBased session with unresolved generation, a
List call attempts only the modern endpoint; any non-200 status — including
a not-found status — is surfaced as an operation failure without falling
back to the legacy endpoint and without changing the session state, so the
generation is never fixed by a data operation. -/
theorem c3_amended (c : NacosClient) (dataID groupName namespaceID : String)
    (pageNo pageSize : Int) (env : ListEnv)
    (ha : c.AuthType = AuthTypeAliyun) (hu : c.authLoginVersion = "") :
    (ListConfigs c dataID groupName namespaceID pageNo pageSize env).client = c ∧
    (∀ r, (ListConfigs c dataID groupName namespaceID pageNo pageSize env).request = some r →
      r.url = "/nacos/v3/admin/cs/config/list") ∧
    (∀ dr : DataHttpResp, env.v3 = .resp dr → dr.status ≠ 200 →
      (ListConfigs c dataID groupName namespaceID pageNo pageSize env).result =
        .error (.badStatus "list" dr.status dr.body)) := by
  have hne := ensureTokenValid_not_nacos c env.login (by rw [ha]; decide)
  unfold ListConfigs
  rw [hne]
  dsimp only
  rw [if_neg (by rw [hu]; decide)]
  obtain ⟨hc, hr, -⟩ := handleListV3_parts c []
    (listV3Request c dataID groupName
      (if namespaceID = "" then c.Namespace else namespaceID) pageNo pageSize env.nowMs)
    env.v3
  refine ⟨hc, fun r hr2 => ?_, fun dr hdr hst => ?_⟩
  · rw [hr] at hr2
    injection hr2 with hre
    rw [← hre]
    exact listV3Request_url c dataID groupName _ pageNo pageSize env.nowMs
  · rw [hdr]
    dsimp only [handleListV3]
    rw [if_pos hst]

/-- Witness for the amended C3 at the concrete 404 scenario. -/
theorem c3_amended_witness :
    ((ListConfigs cAli "d" "g" "" 1 10 listEnv404).client = cAli ∧
     (∀ r, (ListConfigs cAli "d" "g" "" 1 10 listEnv404).request = some r →
       r.url = "/nacos/v3/admin/cs/config/list") ∧
     (∀ dr : DataHttpResp, listEnv404.v3 = .resp dr → dr.status ≠ 200 →
       (ListConfigs cAli "d" "g" "" 1 10 listEnv404).result =
         .error (.badStatus "list" dr.status dr.body))) :=
  c3_amended cAli "d" "g" "" 1 10 listEnv404 rfl rfl

/-! ## Signing behaviour of the request builders -/

theorem listV1Request_spas (c1 : NacosClient) (dataID groupName ns : String)
    (pageNo pageSize : Int) (nowMs : Nat) (h1 : c1.AuthType = AuthTypeAliyun)
    (h2 : c1.AccessKey ≠ "") (h3 : c1.SecretKey ≠ "") :
    (listV1Request c1 dataID groupName ns pageNo pageSize nowMs).getHeader "timeStamp" =
        some (toString nowMs) ∧
    (listV1Request c1 dataID groupName ns pageNo pageSize nowMs).getHeader "Spas-AccessKey" =
        some c1.AccessKey ∧
    (listV1Request c1 dataID groupName ns pageNo pageSize nowMs).getHeader "Spas-Signature" =
        some (spasSign (getSignData ns groupName (toString nowMs)) c1.SecretKey) := by
  unfold listV1Request
  dsimp only
  exact setSpasHeaders_active c1 _ ns groupName nowMs h1 h2 h3

theorem listV3Request_spas (c1 : NacosClient) (dataID groupName ns : String)
    (pageNo pageSize : Int) (nowMs : Nat) (h1 : c1.AuthType = AuthTypeAliyun)
    (h2 : c1.AccessKey ≠ "") (h3 : c1.SecretKey ≠ "") :
    (listV3Request c1 dataID groupName ns pageNo pageSize nowMs).getHeader "timeStamp" =
        some (toString nowMs) ∧
    (listV3Request c1 dataID groupName ns pageNo pageSize nowMs).getHeader "Spas-AccessKey" =
        some c1.AccessKey ∧
    (listV3Request c1 dataID groupName ns pageNo pageSize nowMs).getHeader "Spas-Signature" =
        some (spasSign (getSignData ns groupName (toString nowMs)) c1.SecretKey) := by
  unfold listV3Request
  dsimp only
  exact setSpasHeaders_active c1 _ ns groupName nowMs h1 h2 h3

theorem getRequest_spas (c1 : NacosClient) (dataID group : String) (nowMs : Nat)
    (h1 : c1.AuthType = AuthTypeAliyun) (h2 : c1.AccessKey ≠ "") (h3 : c1.SecretKey ≠ "") :
    (getRequest c1 dataID group nowMs).getHeader "timeStamp" = some (toString nowMs) ∧
    (getRequest c1 dataID group nowMs).getHeader "Spas-AccessKey" = some c1.AccessKey ∧
    (getRequest c1 dataID group nowMs).getHeader "Spas-Signature" =
        some (spasSign (getSignData c1.Namespace group (toString nowMs)) c1.SecretKey) := by
  unfold getRequest
  dsimp only
  exact setSpasHeaders_active c1 _ c1.Namespace group nowMs h1 h2 h3

theorem publishRequest_spas (c1 : NacosClient) (dataID group content : String) (nowMs : Nat)
    (h1 : c1.AuthType = AuthTypeAliyun) (h2 : c1.AccessKey ≠ "") (h3 : c1.SecretKey ≠ "") :
    (publishRequest c1 dataID group content nowMs).getHeader "timeStamp" =
        some (toString nowMs) ∧
    (publishRequest c1 dataID group content nowMs).getHeader "Spas-AccessKey" =
        some c1.AccessKey ∧
    (publishRequest c1 dataID group content nowMs).getHeader "Spas-Signature" =
        some (spasSign (getSignData c1.Namespace group (toString nowMs)) c1.SecretKey) := by
  unfold publishRequest
  dsimp only
  exact setSpasHeaders_active c1 _ c1.Namespace group nowMs h1 h2 h3

theorem listV1Request_headers_nacos (c1 : NacosClient) (dataID groupName ns : String)
    (pageNo pageSize : Int) (nowMs : Nat) (h : c1.AuthType = AuthTypeNacos) :
    (listV1Request c1 dataID groupName ns pageNo pageSize nowMs).headers = [] := by
  unfold listV1Request
  dsimp only
  rw [setSpasHeaders_inactive _ _ _ _ _ (Or.inl (by rw [h]; decide))]
  split_ifs <;> rfl

theorem listV3Request_spas_nacos (c1 : NacosClient) (dataID groupName ns : String)
    (pageNo pageSize : Int) (nowMs : Nat) (h : c1.AuthType = AuthTypeNacos)
    (k : String) (hk : k ≠ "Authorization") :
    (listV3Request c1 dataID groupName ns pageNo pageSize nowMs).getHeader k = none := by
  unfold listV3Request
  dsimp only
  rw [setSpasHeaders_inactive _ _ _ _ _ (Or.inl (by rw [h]; decide))]
  split_ifs <;>
    simp [Request.getHeader, Request.setHeader, Request.setQuery, Request.empty, getKV,
      setKV, Ne.symm hk]

theorem getRequest_headers_nacos (c1 : NacosClient) (dataID group : String) (nowMs : Nat)
    (h : c1.AuthType = AuthTypeNacos) :
    (getRequest c1 dataID group nowMs).headers = [] := by
  unfold getRequest
  dsimp only
  rw [setSpasHeaders_inactive _ _ _ _ _ (Or.inl (by rw [h]; decide))]
  split_ifs <;> rfl

theorem publishRequest_headers_nacos (c1 : NacosClient) (dataID group content : String)
    (nowMs : Nat) (h : c1.AuthType = AuthTypeNacos) :
    (publishRequest c1 dataID group content nowMs).headers = [] := by
  unfold publishRequest
  dsimp only
  rw [setSpasHeaders_inactive _ _ _ _ _ (Or.inl (by rw [h]; decide))]
  split_ifs <;> rfl

/-- Small helper: a request with no headers answers `none` to any header
lookup. -/
theorem getHeader_of_headers_nil (r : Request) (h : r.headers = []) (k : String) :
    r.getHeader k = none := by
  simp [Request.getHeader, h, getKV]

theorem ListConfigs_aliyun (c : NacosClient) (dataID groupName namespaceID : String)
    (pageNo pageSize : Int) (env : ListEnv) (ha : c.AuthType = AuthTypeAliyun) :
    (ListConfigs c dataID groupName namespaceID pageNo pageSize env).client = c ∧
    (ListConfigs c dataID groupName namespaceID pageNo pageSize env).loginAttempts = [] ∧
    (c.AccessKey ≠ "" → c.SecretKey ≠ "" →
      ∀ r, (ListConfigs c dataID groupName namespaceID pageNo pageSize env).request = some r →
        r.getHeader "timeStamp" = some (toString env.nowMs) ∧
        r.getHeader "Spas-AccessKey" = some c.AccessKey ∧
        r.getHeader "Spas-Signature" = some (spasSign (getSignData
          (if namespaceID = "" then c.Namespace else namespaceID) groupName
          (toString env.nowMs)) c.SecretKey)) := by
  have hne := ensureTokenValid_not_nacos c env.login (by rw [ha]; decide)
  unfold ListConfigs listConfigsV1
  rw [hne]
  dsimp only
  by_cases hvv : c.authLoginVersion = "v1"
  · rw [if_pos hvv, hne]
    dsimp only
    obtain ⟨hc, hr, hatt⟩ := handleListV1_parts c []
      (listV1Request c dataID groupName
        (if namespaceID = "" then c.Namespace else namespaceID) pageNo pageSize env.nowMs)
      env.v1
    refine ⟨hc, by simp [hatt], fun h2 h3 r hr2 => ?_⟩
    rw [hr] at hr2
    injection hr2 with hre
    rw [← hre]
    exact listV1Request_spas c dataID groupName _ pageNo pageSize env.nowMs ha h2 h3
  · rw [if_neg hvv]
    obtain ⟨hc, hr, hatt⟩ := handleListV3_parts c []
      (listV3Request c dataID groupName
        (if namespaceID = "" then c.Namespace else namespaceID) pageNo pageSize env.nowMs)
      env.v3
    refine ⟨hc, hatt, fun h2 h3 r hr2 => ?_⟩
    rw [hr] at hr2
    injection hr2 with hre
    rw [← hre]
    exact listV3Request_spas c dataID groupName _ pageNo pageSize env.nowMs ha h2 h3

theorem GetConfig_aliyun (c : NacosClient) (dataID group : String) (env : SimpleEnv)
    (ha : c.AuthType = AuthTypeAliyun) :
    (GetConfig c dataID group env).client = c ∧
    (GetConfig c dataID group env).loginAttempts = [] ∧
    (c.AccessKey ≠ "" → c.SecretKey ≠ "" →
      ∀ r, (GetConfig c dataID group env).request = some r →
        r.getHeader "timeStamp" = some (toString env.nowMs) ∧
        r.getHeader "Spas-AccessKey" = some c.AccessKey ∧
        r.getHeader "Spas-Signature" = some (spasSign (getSignData
          c.Namespace group (toString env.nowMs)) c.SecretKey)) := by
  have hne := ensureTokenValid_not_nacos c env.login (by rw [ha]; decide)
  unfold GetConfig
  rw [hne]
  dsimp only
  obtain ⟨hc, hr, hatt⟩ := handleGet_parts c [] (getRequest c dataID group env.nowMs) env.http
  refine ⟨hc, hatt, fun h2 h3 r hr2 => ?_⟩
  rw [hr] at hr2
  injection hr2 with hre
  rw [← hre]
  exact getRequest_spas c dataID group env.nowMs ha h2 h3

theorem PublishConfig_aliyun (c : NacosClient) (dataID group content : String)
    (env : SimpleEnv) (ha : c.AuthType = AuthTypeAliyun) :
    (PublishConfig c dataID group content env).client = c ∧
    (PublishConfig c dataID group content env).loginAttempts = [] ∧
    (c.AccessKey ≠ "" → c.SecretKey ≠ "" →
      ∀ r, (PublishConfig c dataID group content env).request = some r →
        r.getHeader "timeStamp" = some (toString env.nowMs) ∧
        r.getHeader "Spas-AccessKey" = some c.AccessKey ∧
        r.getHeader "Spas-Signature" = some (spasSign (getSignData
          c.Namespace group (toString env.nowMs)) c.SecretKey)) := by
  have hne := ensureTokenValid_not_nacos c env.login (by rw [ha]; decide)
  unfold PublishConfig
  rw [hne]
  dsimp only
  obtain ⟨hc, hr, hatt⟩ := handlePublish_parts c []
    (publishRequest c dataID group content env.nowMs) env.http
  refine ⟨hc, hatt, fun h2 h3 r hr2 => ?_⟩
  rw [hr] at hr2
  injection hr2 with hre
  rw [← hre]
  exact publishRequest_spas c dataID group content env.nowMs ha h2 h3

theorem ListConfigs_no_spas_nacos (c : NacosClient) (dataID groupName namespaceID : String)
    (pageNo pageSize : Int) (env : ListEnv) (h : c.AuthType = AuthTypeNacos) :
    ∀ r, (ListConfigs c dataID groupName namespaceID pageNo pageSize env).request = some r →
      r.getHeader "timeStamp" = none ∧
      r.getHeader "Spas-AccessKey" = none ∧
      r.getHeader "Spas-Signature" = none := by
  intro r hr2
  unfold ListConfigs at hr2
  have hid := ensureTokenValid_identity c env.login
  rcases her : ensureTokenValid c env.login with ⟨c1, err, att⟩
  rw [her] at hr2 hid
  dsimp only at hr2 hid
  have hAuth : c1.AuthType = AuthTypeNacos := hid.2.2.1.trans h
  rcases err with _ | e
  · dsimp only at hr2
    by_cases hvv : c1.authLoginVersion = "v1"
    · rw [if_pos hvv] at hr2
      unfold listConfigsV1 at hr2
      have hid2 := ensureTokenValid_identity c1 env.login
      rcases her2 : ensureTokenValid c1 env.login with ⟨c2, err2, att2⟩
      rw [her2] at hr2 hid2
      dsimp only at hr2 hid2
      have hAuth2 : c2.AuthType = AuthTypeNacos := hid2.2.2.1.trans hAuth
      rcases err2 with _ | e2
      · dsimp only at hr2
        obtain ⟨-, hreq, -⟩ := handleListV1_parts c2 att2
          (listV1Request c2 dataID groupName
            (if namespaceID = "" then c1.Namespace else namespaceID) pageNo pageSize
            env.nowMs) env.v1
        rw [hreq] at hr2
        injection hr2 with hre
        rw [← hre]
        have hh := listV1Request_headers_nacos c2 dataID groupName
          (if namespaceID = "" then c1.Namespace else namespaceID) pageNo pageSize
          env.nowMs hAuth2
        exact ⟨getHeader_of_headers_nil _ hh _, getHeader_of_headers_nil _ hh _,
          getHeader_of_headers_nil _ hh _⟩
      · cases hr2
    · rw [if_neg hvv] at hr2
      obtain ⟨-, hreq, -⟩ := handleListV3_parts c1 att
        (listV3Request c1 dataID groupName
          (if namespaceID = "" then c1.Namespace else namespaceID) pageNo pageSize
          env.nowMs) env.v3
      rw [hreq] at hr2
      injection hr2 with hre
      rw [← hre]
      exact ⟨listV3Request_spas_nacos c1 dataID groupName _ pageNo pageSize env.nowMs
          hAuth _ (by decide),
        listV3Request_spas_nacos c1 dataID groupName _ pageNo pageSize env.nowMs
          hAuth _ (by decide),
        listV3Request_spas_nacos c1 dataID groupName _ pageNo pageSize env.nowMs
          hAuth _ (by decide)⟩
  · cases hr2

theorem GetConfig_no_spas_nacos (c : NacosClient) (dataID group : String) (env : SimpleEnv)
    (h : c.AuthType = AuthTypeNacos) :
    ∀ r, (GetConfig c dataID group env).request = some r →
      r.getHeader "timeStamp" = none ∧
      r.getHeader "Spas-AccessKey" = none ∧
      r.getHeader "Spas-Signature" = none := by
  intro r hr2
  unfold GetConfig at hr2
  have hid := ensureTokenValid_identity c env.login
  rcases her : ensureTokenValid c env.login with ⟨c1, err, att⟩
  rw [her] at hr2 hid
  dsimp only at hr2 hid
  have hAuth : c1.AuthType = AuthTypeNacos := hid.2.2.1.trans h
  rcases err with _ | e
  · dsimp only at hr2
    obtain ⟨-, hreq, -⟩ := handleGet_parts c1 att (getRequest c1 dataID group env.nowMs) env.http
    rw [hreq] at hr2
    injection hr2 with hre
    rw [← hre]
    have hh := getRequest_headers_nacos c1 dataID group env.nowMs hAuth
    exact ⟨getHeader_of_headers_nil _ hh _, getHeader_of_headers_nil _ hh _,
      getHeader_of_headers_nil _ hh _⟩
  · cases hr2

theorem PublishConfig_no_spas_nacos (c : NacosClient) (dataID group content : String)
    (env : SimpleEnv) (h : c.AuthType = AuthTypeNacos) :
    ∀ r, (PublishConfig c dataID group content env).request = some r →
      r.getHeader "timeStamp" = none ∧
      r.getHeader "Spas-AccessKey" = none ∧
      r.getHeader "Spas-Signature" = none := by
  intro r hr2
  unfold PublishConfig at hr2
  have hid := ensureTokenValid_identity c env.login
  rcases her : ensureTokenValid c env.login with ⟨c1, err, att⟩
  rw [her] at hr2 hid
  dsimp only at hr2 hid
  have hAuth : c1.AuthType = AuthTypeNacos := hid.2.2.1.trans h
  rcases err with _ | e
  · dsimp only at hr2
    obtain ⟨-, hreq, -⟩ := handlePublish_parts c1 att
      (publishRequest c1 dataID group content env.nowMs) env.http
    rw [hreq] at hr2
    injection hr2 with hre
    rw [← hre]
    have hh := publishRequest_headers_nacos c1 dataID group content env.nowMs hAuth
    exact ⟨getHeader_of_headers_nil _ hh _, getHeader_of_headers_nil _ hh _,
      getHeader_of_headers_nil _ hh _⟩
  · cases hr2

/-- A session explicitly constructed with the key-pair scheme but an empty
access key. -/
def cAliNoKey : NacosClient :=
  { ServerAddr := "127.0.0.1:8848", Namespace := "public", AuthType := "aliyun",
    Username := "", Password := "", AccessKey := "", SecretKey := "sk",
    AccessToken := "", TokenExpireAt := none, authLoginVersion := "" }

/-- C7 counterexample: a KeyPairBased (aliyun) session whose access key is
empty issues its outgoing request with NONE of the three signed headers
attached — `setSpasHeaders` skips signing when either key is empty, so the
claim's "every outgoing request gets the three signed headers" fails. -/
theorem c7_counterexample :
    cAliNoKey.AuthType = AuthTypeAliyun ∧
    ((ListConfigs cAliNoKey "d" "g" "" 1 10 listEnv404).request.map
      (fun r => r.getHeader "timeStamp")) = some none ∧
    ((ListConfigs cAliNoKey "d" "g" "" 1 10 listEnv404).request.map
      (fun r => r.getHeader "Spas-AccessKey")) = some none ∧
    ((ListConfigs cAliNoKey "d" "g" "" 1 10 listEnv404).request.map
      (fun r => r.getHeader "Spas-Signature")) = some none :=
  ⟨rfl, rfl, rfl, rfl⟩

/-- C7 amended: a KeyPairBased session never performs a login and its stored
state (in particular the bearer token) is never mutated by any operation;
when BOTH the access key and the secret key are non-empty, every outgoing
request carries the three signed headers `timeStamp`, `Spas-AccessKey` and
`Spas-Signature`; a CredentialBased session's requests never carry any of
the three. -/
theorem c7_keypair_signing (c : NacosClient) :
    (c.AuthType = AuthTypeAliyun →
      (∀ env : LoginEnv, ensureTokenValid c env = ⟨c, none, []⟩) ∧
      (∀ (dataID groupName namespaceID : String) (pageNo pageSize : Int) (env : ListEnv),
        (ListConfigs c dataID groupName namespaceID pageNo pageSize env).client = c ∧
        (ListConfigs c dataID groupName namespaceID pageNo pageSize env).loginAttempts = []) ∧
      (∀ (dataID group : String) (env : SimpleEnv),
        (GetConfig c dataID group env).client = c ∧
        (GetConfig c dataID group env).loginAttempts = []) ∧
      (∀ (dataID group content : String) (env : SimpleEnv),
        (PublishConfig c dataID group content env).client = c ∧
        (PublishConfig c dataID group content env).loginAttempts = []) ∧
      (c.AccessKey ≠ "" → c.SecretKey ≠ "" →
        (∀ (dataID groupName namespaceID : String) (pageNo pageSize : Int) (env : ListEnv) r,
          (ListConfigs c dataID groupName namespaceID pageNo pageSize env).request = some r →
            r.getHeader "timeStamp" = some (toString env.nowMs) ∧
            r.getHeader "Spas-AccessKey" = some c.AccessKey ∧
            r.getHeader "Spas-Signature" = some (spasSign (getSignData
              (if namespaceID = "" then c.Namespace else namespaceID) groupName
              (toString env.nowMs)) c.SecretKey)) ∧
        (∀ (dataID group : String) (env : SimpleEnv) r,
          (GetConfig c dataID group env).request = some r →
            r.getHeader "timeStamp" = some (toString env.nowMs) ∧
            r.getHeader "Spas-AccessKey" = some c.AccessKey ∧
            r.getHeader "Spas-Signature" = some (spasSign (getSignData
              c.Namespace group (toString env.nowMs)) c.SecretKey)) ∧
        (∀ (dataID group content : String) (env : SimpleEnv) r,
          (PublishConfig c dataID group content env).request = some r →
            r.getHeader "timeStamp" = some (toString env.nowMs) ∧
            r.getHeader "Spas-AccessKey" = some c.AccessKey ∧
            r.getHeader "Spas-Signature" = some (spasSign (getSignData
              c.Namespace group (toString env.nowMs)) c.SecretKey)))) ∧
    (c.AuthType = AuthTypeNacos →
      (∀ (dataID groupName namespaceID : String) (pageNo pageSize : Int) (env : ListEnv) r,
        (ListConfigs c dataID groupName namespaceID pageNo pageSize env).request = some r →
          r.getHeader "timeStamp" = none ∧
          r.getHeader "Spas-AccessKey" = none ∧
          r.getHeader "Spas-Signature" = none) ∧
      (∀ (dataID group : String) (env : SimpleEnv) r,
        (GetConfig c dataID group env).request = some r →
          r.getHeader "timeStamp" = none ∧
          r.getHeader "Spas-AccessKey" = none ∧
          r.getHeader "Spas-Signature" = none) ∧
      (∀ (dataID group content : String) (env : SimpleEnv) r,
        (PublishConfig c dataID group content env).request = some r →
          r.getHeader "timeStamp" = none ∧
          r.getHeader "Spas-AccessKey" = none ∧
          r.getHeader "Spas-Signature" = none)) := by
  constructor
  · intro ha
    refine ⟨fun env => ensureTokenValid_not_nacos c env (by rw [ha]; decide),
      fun dataID groupName namespaceID pageNo pageSize env =>
        ⟨(ListConfigs_aliyun c dataID groupName namespaceID pageNo pageSize env ha).1,
         (ListConfigs_aliyun c dataID groupName namespaceID pageNo pageSize env ha).2.1⟩,
      fun dataID group env =>
        ⟨(GetConfig_aliyun c dataID group env ha).1,
         (GetConfig_aliyun c dataID group env ha).2.1⟩,
      fun dataID group content env =>
        ⟨(PublishConfig_aliyun c dataID group content env ha).1,
         (PublishConfig_aliyun c dataID group content env ha).2.1⟩,
      fun h2 h3 =>
        ⟨fun dataID groupName namespaceID pageNo pageSize env r hr =>
          (ListConfigs_aliyun c dataID groupName namespaceID pageNo pageSize env ha).2.2
            h2 h3 r hr,
         fun dataID group env r hr =>
          (GetConfig_aliyun c dataID group env ha).2.2 h2 h3 r hr,
         fun dataID group content env r hr =>
          (PublishConfig_aliyun c dataID group content env ha).2.2 h2 h3 r hr⟩⟩
  · intro hn
    exact ⟨fun dataID groupName namespaceID pageNo pageSize env r hr =>
        ListConfigs_no_spas_nacos c dataID groupName namespaceID pageNo pageSize env hn r hr,
      fun dataID group env r hr => GetConfig_no_spas_nacos c dataID group env hn r hr,
      fun dataID group content env r hr =>
        PublishConfig_no_spas_nacos c dataID group content env hn r hr⟩

/-- Witness for the amended C7: the key-pair session `cAli` performs no
login and its List request carries the three signed headers. -/
theorem c7_keypair_signing_witness :
    ((ListConfigs cAli "d" "g" "" 1 10 listEnv404).client = cAli ∧
     (ListConfigs cAli "d" "g" "" 1 10 listEnv404).loginAttempts = []) ∧
    (∀ r, (ListConfigs cAli "d" "g" "" 1 10 listEnv404).request = some r →
      r.getHeader "timeStamp" = some (toString listEnv404.nowMs) ∧
      r.getHeader "Spas-AccessKey" = some cAli.AccessKey ∧
      r.getHeader "Spas-Signature" = some (spasSign (getSignData
        (if "" = "" then cAli.Namespace else "") "g"
        (toString listEnv404.nowMs)) cAli.SecretKey)) :=
  ⟨((c7_keypair_signing cAli).1 rfl).2.1 "d" "g" "" 1 10 listEnv404,
   fun r hr => (((c7_keypair_signing cAli).1 rfl).2.2.2.2 (by decide) (by decide)).1
     "d" "g" "" 1 10 listEnv404 r hr⟩

/-- C8 counterexample: when the login performed inside session construction
fails, the constructor does not return the failure to the caller — its
return carries no error value at all; the failure surfaces only as a
printed warning line, and a normal (tokenless) session is returned. -/
theorem c8_counterexample :
    (NewNacosClient "127.0.0.1:8848" "" "" "nacos" "nacos" "" "" envFail).2 =
      ["Warning: Login failed"] ∧
    (NewNacosClient "127.0.0.1:8848" "" "" "nacos" "nacos" "" "" envFail).1.AccessToken = "" ∧
    (login (initClient "127.0.0.1:8848" "" "" "nacos" "nacos" "" "") envFail).error =
      some .loginNetErr :=
  ⟨rfl, rfl, rfl⟩

/-- C8 amended: a failure of the token-refresh step inside any operation —
including a login failure — is returned verbatim to the immediate caller as
a distinct inspectable error value; but a login failure during session
construction is not returned to the caller: the constructor prints a
warning line and returns the session anyway. -/
theorem c8_error_propagation (c : NacosClient) (e : GoError) :
    (∀ (dataID groupName namespaceID : String) (pageNo pageSize : Int) (env : ListEnv),
      (ensureTokenValid c env.login).error = some e →
        (ListConfigs c dataID groupName namespaceID pageNo pageSize env).result = .error e) ∧
    (∀ (dataID group : String) (env : SimpleEnv),
      (ensureTokenValid c env.login).error = some e →
        (GetConfig c dataID group env).result = .error e) ∧
    (∀ (dataID group content : String) (env : SimpleEnv),
      (ensureTokenValid c env.login).error = some e →
        (PublishConfig c dataID group content env).result = .error e) ∧
    (∀ (serverAddr ns authType username password accessKey secretKey : String)
        (env : LoginEnv),
      (initClient serverAddr ns authType username password accessKey secretKey).AuthType =
          AuthTypeNacos →
      (login (initClient serverAddr ns authType username password accessKey secretKey)
          env).error.isSome →
        (NewNacosClient serverAddr ns authType username password accessKey secretKey env).2 =
          ["Warning: Login failed"] ∧
        (NewNacosClient serverAddr ns authType username password accessKey secretKey env).1 =
          (login (initClient serverAddr ns authType username password accessKey secretKey)
            env).client) := by
  refine ⟨?_, ?_, ?_, ?_⟩
  · intro dataID groupName namespaceID pageNo pageSize env he
    unfold ListConfigs
    rcases her : ensureTokenValid c env.login with ⟨c1, err, att⟩
    rw [her] at he
    dsimp only at he
    subst he
    rfl
  · intro dataID group env he
    unfold GetConfig
    rcases her : ensureTokenValid c env.login with ⟨c1, err, att⟩
    rw [her] at he
    dsimp only at he
    subst he
    rfl
  · intro dataID group content env he
    unfold PublishConfig
    rcases her : ensureTokenValid c env.login with ⟨c1, err, att⟩
    rw [her] at he
    dsimp only at he
    subst he
    rfl
  · intro serverAddr ns authType username password accessKey secretKey env hAuth hsome
    unfold NewNacosClient
    dsimp only
    rw [if_pos hAuth]
    rcases herr : (login (initClient serverAddr ns authType username password accessKey
        secretKey) env).error with _ | e2
    · simp [herr] at hsome
    · exact ⟨rfl, rfl⟩

/-- A list environment whose login environment is unreachable. -/
def listEnvFail : ListEnv :=
  { login := envFail, nowMs := 0,
    v3 := .resp ⟨200, "env", some ⟨0, "", some ⟨0, 1, 0, []⟩⟩, none⟩,
    v1 := .netErr }

/-- Witness for the amended C8: a failed token refresh inside `ListConfigs`
is returned verbatim to the caller. -/
theorem c8_error_propagation_witness :
    (ListConfigs cW10 "d" "g" "" 1 10 listEnvFail).result =
      .error GoError.loginNetErr :=
  (c8_error_propagation cW10 .loginNetErr).1 "d" "g" "" 1 10 listEnvFail (by decide)

end NacosCli
